import Mathlib

/-!
Shallow embedding of the spot-web connection/safety supervisor
(`backend/spot_bridge.py`, class `SpotBridge`) and proofs about it.

Python floats are modelled as rationals (`ℚ`), Python `None`-able
attributes as `Option`/`Bool` presence flags, result dictionaries as the
`Envelope` structure, and calls into the external Boston Dynamics SDK as
explicit outcome parameters (`CapOutcome` etc.): each operation takes the
outcome the external capability would produce and returns the envelope and
the updated supervisor state.  Operations whose Python bodies catch every
exception are total functions; operations that catch only `RpcError`
return `Except PyExc`, so that a non-Rpc exception escaping the method is
visible as an `.error` result.
-/

namespace SpotWeb

/-- Robot identity as returned by `robot.get_id()`. -/
structure RobotId where
  serial : String
  nickname : String
deriving DecidableEq, Repr

/-- The `error` sub-dictionary of a result envelope.  `error_type` and
`suggested_fix` are optional because some error dictionaries in the source
(e.g. the not-connected errors) carry only a `message` key. -/
structure ErrInfo where
  error_type : Option String
  message : String
  suggested_fix : Option String
deriving DecidableEq, Repr

/-- One entry of a diagnostics/test list: `{name, status, message}`. -/
structure Check where
  name : String
  status : String
  message : String
deriving DecidableEq, Repr

/-- The `data` dictionary of `test_connection`.  `ready_to_connect` is an
`Option` because the short-circuit returns omit that key. -/
structure TCData where
  tests : List Check
  summary : String
  ready_to_connect : Option Bool
deriving DecidableEq, Repr

/-- The `data` dictionary of `diagnose`. -/
structure DiagData where
  summary : String
  checks : List Check
  overall_status : String
deriving DecidableEq, Repr

/-- The `data` dictionary of `get_status`. -/
structure StatusData where
  connected : Bool
  robot_id : String
  robot_nickname : String
  battery_percentage : ℚ
  battery_runtime : ℚ
  is_powered_on : Bool
  power_state : ℤ
  lease_status : String
  estop_status : String
  timestamp : ℚ
deriving DecidableEq, Repr

/-- The possible shapes of the `data` field of a result envelope. -/
inductive EnvData where
  | msg (m : String)
  | connectInfo (message : String) (robot_id : String)
  | velocity (vx vy yaw : ℚ)
  | pose (height roll pitch yaw : ℚ)
  | status (d : StatusData)
  | diag (d : DiagData)
  | tc (d : TCData)
deriving DecidableEq, Repr

/-- The uniform result dictionary returned by every bridge operation. -/
structure Envelope where
  ok : Bool
  data : Option EnvData := none
  error : Option ErrInfo := none
deriving DecidableEq, Repr

/-- A Python exception as seen by the bridge: either an instance of the
SDK's `RpcError` hierarchy or any other exception.  The first string is
the exception class name (`e.__class__.__name__`), the second `str(e)`. -/
inductive PyExc where
  | rpcError (error_class : String) (message : String)
  | otherExc (error_class : String) (message : String)
deriving DecidableEq, Repr

/-- The exception class name, `e.__class__.__name__`. -/
def PyExc.className : PyExc → String
  | .rpcError c _ => c
  | .otherExc c _ => c

/-- The message text, `str(e)`. -/
def PyExc.msg : PyExc → String
  | .rpcError _ m => m
  | .otherExc _ m => m

/-- Outcome of one call into the external robot capability. -/
inductive CapOutcome where
  | success
  | raise (e : PyExc)
deriving DecidableEq, Repr

/-- Substring test: `pat` occurs as a substring of `s` (Python `pat in s`). -/
def strContainsSub (s pat : String) : Bool :=
  (List.range (s.data.length + 1)).any (fun i => pat.data.isPrefixOf (s.data.drop i))

/-- Embeds `SpotBridge._suggest_fix_for_error`: substring matching over the
lowercased error text. -/
def suggestFixForError (error_str : String) : String :=
  let e := error_str.toLower
  if strContainsSub e "authentication" || strContainsSub e "credentials" then
    "Check SPOT_USER and SPOT_PASS credentials"
  else if strContainsSub e "connection refused" || strContainsSub e "unreachable" then
    "Check SPOT_HOST IP address and network connectivity"
  else if strContainsSub e "lease" then
    "Another client may have the lease. Check Spot admin or release other clients."
  else if strContainsSub e "time sync" then
    "Check system time and NTP configuration"
  else if strContainsSub e "power" then
    "Ensure robot is powered on before commanding movement"
  else if strContainsSub e "estop" then
    "Check E-Stop status - physical or software E-Stop may be active"
  else
    "Check connection and robot status. See logs for details."

/-- The mutable attributes of a `SpotBridge` instance.  SDK client handles
are modelled as presence booleans; `robot` keeps the identity the handle
yields via `get_id()`; `watchdog_thread` records that a thread object is
referenced (the source never clears that attribute, only the run flag). -/
structure SpotState where
  hostname : String
  username : String
  password : String
  robot : Option RobotId
  command_client : Bool
  state_client : Bool
  lease_client : Bool
  power_client : Bool
  estop_client : Bool
  lease_keepalive : Bool
  estop_endpoint : Bool
  estop_keepalive : Bool
  last_velocity_time : ℚ
  watchdog_thread : Bool
  watchdog_active : Bool
  connected : Bool
deriving DecidableEq, Repr

/-- Embeds `SpotBridge.__init__`. -/
def initState (hostname username password : String) : SpotState :=
  { hostname := hostname
    username := username
    password := password
    robot := none
    command_client := false
    state_client := false
    lease_client := false
    power_client := false
    estop_client := false
    lease_keepalive := false
    estop_endpoint := false
    estop_keepalive := false
    last_velocity_time := 0
    watchdog_thread := false
    watchdog_active := false
    connected := false }

/-- Success envelope `{"ok": True, "data": {"message": m}}`. -/
def okMsg (m : String) : Envelope :=
  { ok := true, data := some (.msg m) }

/-- Error envelope `{"ok": False, "error": {"message": m}}` (no `error_type` key). -/
def errMsg (m : String) : Envelope :=
  { ok := false, error := some { error_type := none, message := m, suggested_fix := none } }

/-- The error envelope built in the `except RpcError` handlers:
class name, message, and a suggested fix derived from the message. -/
def rpcErrEnvelope (e : PyExc) : Envelope :=
  { ok := false
    error := some { error_type := some e.className
                    message := e.msg
                    suggested_fix := some (suggestFixForError e.msg) } }

/-- The error envelope built in `except Exception` handlers, with the
handler's fixed `suggested_fix` text. -/
def excEnvelope (e : PyExc) (fix : String) : Envelope :=
  { ok := false
    error := some { error_type := some e.className
                    message := e.msg
                    suggested_fix := some fix } }

/-- The velocity clamp in `send_velocity`: `max(-0.5, min(0.5, v))`. -/
def clampVelocity (v : ℚ) : ℚ := max (-(1/2)) (min (1/2) v)

/-- The body-pose clamp in `set_body_pose`: `max(-0.3, min(0.3, v))`. -/
def clampPose (v : ℚ) : ℚ := max (-(3/10)) (min (3/10) v)

/-- Embeds `SpotBridge._send_zero_velocity`: issues a zero-velocity command when
both the robot handle and the command client are present; every exception
from the command call is caught and logged, so the state is unchanged in
all cases.  The boolean reports whether a command was issued to the
capability. -/
def sendZeroVelocity (s : SpotState) (cap : CapOutcome) : SpotState × Bool :=
  match cap with
  | .success => (s, s.robot.isSome && s.command_client)
  | .raise _ => (s, s.robot.isSome && s.command_client)

/-- Embeds `SpotBridge.power_on`: requires `connected`; only `RpcError` is
caught, so any other exception from the capability propagates. -/
def power_on (s : SpotState) (cap : CapOutcome) : Except PyExc (Envelope × SpotState) :=
  if s.connected = false then .ok (errMsg "Not connected", s)
  else
    match cap with
    | .success => .ok (okMsg "Powered on", s)
    | .raise e =>
      match e with
      | .rpcError _ _ => .ok (rpcErrEnvelope e, s)
      | .otherExc _ _ => .error e

/-- Embeds `SpotBridge.power_off`: same catch structure as `power_on`. -/
def power_off (s : SpotState) (cap : CapOutcome) : Except PyExc (Envelope × SpotState) :=
  if s.connected = false then .ok (errMsg "Not connected", s)
  else
    match cap with
    | .success => .ok (okMsg "Powered off", s)
    | .raise e =>
      match e with
      | .rpcError _ _ => .ok (rpcErrEnvelope e, s)
      | .otherExc _ _ => .error e

/-- Embeds `SpotBridge.stand`: same catch structure as `power_on`. -/
def stand (s : SpotState) (cap : CapOutcome) : Except PyExc (Envelope × SpotState) :=
  if s.connected = false then .ok (errMsg "Not connected", s)
  else
    match cap with
    | .success => .ok (okMsg "Standing", s)
    | .raise e =>
      match e with
      | .rpcError _ _ => .ok (rpcErrEnvelope e, s)
      | .otherExc _ _ => .error e

/-- Embeds `SpotBridge.sit`: same catch structure as `power_on`. -/
def sit (s : SpotState) (cap : CapOutcome) : Except PyExc (Envelope × SpotState) :=
  if s.connected = false then .ok (errMsg "Not connected", s)
  else
    match cap with
    | .success => .ok (okMsg "Sitting", s)
    | .raise e =>
      match e with
      | .rpcError _ _ => .ok (rpcErrEnvelope e, s)
      | .otherExc _ _ => .error e

/-- Embeds `SpotBridge.send_velocity`: requires `connected`; clamps all three
axes, issues the command, and on success records `now` as the last
velocity time.  Only `RpcError` is caught; on an Rpc failure the deadline
is not updated (the exception is raised before the assignment). -/
def send_velocity (s : SpotState) (vx vy yaw : ℚ) (cap : CapOutcome) (now : ℚ) :
    Except PyExc (Envelope × SpotState) :=
  if s.connected = false then .ok (errMsg "Not connected", s)
  else
    let cvx := clampVelocity vx
    let cvy := clampVelocity vy
    let cyaw := clampVelocity yaw
    match cap with
    | .success =>
      .ok ({ ok := true, data := some (.velocity cvx cvy cyaw) },
           { s with last_velocity_time := now })
    | .raise e =>
      match e with
      | .rpcError _ _ => .ok (rpcErrEnvelope e, s)
      | .otherExc _ _ => .error e

/-- Embeds `SpotBridge.set_body_pose`: requires `connected`; clamps each axis
independently; catches both `RpcError` and `Exception`, so it never
propagates a failure. -/
def set_body_pose (s : SpotState) (height roll pitch yaw : ℚ) (cap : CapOutcome) :
    Envelope × SpotState :=
  if s.connected = false then (errMsg "Not connected", s)
  else
    let ch := clampPose height
    let cr := clampPose roll
    let cp := clampPose pitch
    let cy := clampPose yaw
    match cap with
    | .success => ({ ok := true, data := some (.pose ch cr cp cy) }, s)
    | .raise e =>
      match e with
      | .rpcError _ _ => (rpcErrEnvelope e, s)
      | .otherExc _ _ => (excEnvelope e "Check that robot is standing and powered on", s)

/-- Embeds `SpotBridge.stop`: requires `connected`; issues a zero-velocity
command via `_send_zero_velocity` (which swallows every failure) and then
unconditionally clears the deadline, so the operation reports success even
when the underlying command fails. -/
def stop (s : SpotState) (cap : CapOutcome) : Envelope × SpotState :=
  if s.connected = false then (errMsg "Not connected", s)
  else
    let s1 := (sendZeroVelocity s cap).1
    (okMsg "Stopped", { s1 with last_velocity_time := 0 })

/-- Embeds `SpotBridge.estop_stop`: requires `connected` and an e-stop endpoint;
catches every exception. -/
def estop_stop (s : SpotState) (cap : CapOutcome) : Envelope × SpotState :=
  if s.connected = false ∨ s.estop_endpoint = false then (errMsg "E-Stop not configured", s)
  else
    match cap with
    | .success => (okMsg "E-Stop triggered", s)
    | .raise e => (excEnvelope e "Check E-Stop configuration", s)

/-- Embeds `SpotBridge.estop_release`: same structure as `estop_stop`. -/
def estop_release (s : SpotState) (cap : CapOutcome) : Envelope × SpotState :=
  if s.connected = false ∨ s.estop_endpoint = false then (errMsg "E-Stop not configured", s)
  else
    match cap with
    | .success => (okMsg "E-Stop released", s)
    | .raise e => (excEnvelope e "Check E-Stop configuration", s)

/-- The bosdyn `PowerState.MotorPowerState.STATE_ON` enum value, compared
against in `get_status`. -/
def STATE_ON : ℤ := 2

/-- Outcome of `state_client.get_robot_state()` together with the rest of
the status snapshot: on success, an optional first battery state (charge
percentage, estimated runtime seconds) and the motor power state. -/
inductive StatusOutcome where
  | stateOk (battery : Option (ℚ × ℚ)) (motor_power_state : ℤ)
  | raise (e : PyExc)
deriving DecidableEq, Repr

/-- Environment of one `get_status` call: the state-query outcome and the
wall-clock time used for the timestamp. -/
structure StatusWorld where
  outcome : StatusOutcome
  now : ℚ
deriving DecidableEq, Repr

/-- Embeds `SpotBridge.get_status`: fails with a message-only error when not
connected or the robot handle is absent; otherwise snapshots the robot
state without writing any supervisor attribute.  Both `RpcError` and
`Exception` are caught. -/
def get_status (s : SpotState) (w : StatusWorld) : Envelope × SpotState :=
  if s.connected = false ∨ s.robot = none then (errMsg "Not connected to robot", s)
  else
    match w.outcome with
    | .stateOk battery motor =>
      let rid := s.robot.getD { serial := "", nickname := "" }
      ({ ok := true
         data := some (.status
           { connected := true
             robot_id := rid.serial
             robot_nickname := rid.nickname
             battery_percentage := (battery.map Prod.fst).getD 0
             battery_runtime := (battery.map Prod.snd).getD 0
             is_powered_on := motor = STATE_ON
             power_state := motor
             lease_status := if s.lease_keepalive then "active" else "none"
             estop_status := if s.estop_keepalive then "ok" else "not_configured"
             timestamp := w.now }) }, s)
    | .raise e =>
      match e with
      | .rpcError _ _ => (rpcErrEnvelope e, s)
      | .otherExc _ _ => (excEnvelope e "Check connection to robot", s)

/-- Embeds `SpotBridge._cleanup`: sets `connected` and `watchdog_active` to
false, joins the watchdog thread (keeping the dead thread reference),
best-effort shuts down both keepalives and returns the lease (failures
logged), and clears every client/session reference.  It does not touch
`last_velocity_time`. -/
def cleanup (s : SpotState) : SpotState :=
  { s with
    connected := false
    watchdog_active := false
    estop_keepalive := false
    lease_keepalive := false
    estop_endpoint := false
    estop_client := false
    power_client := false
    lease_client := false
    state_client := false
    command_client := false
    robot := none }

/-- Embeds `SpotBridge.disconnect`: runs `_cleanup` and reports success.  The
`except Exception` handler is unreachable because `_cleanup` catches all
failures of its risky steps internally. -/
def disconnect (s : SpotState) : Envelope × SpotState :=
  (okMsg "Disconnected", cleanup s)

/-- The successive state-changing actions of `SpotBridge.connect`, in
source order: create robot handle; authenticate; sync time; resolve the
five clients; take the lease; start the lease keepalive; create the
e-stop endpoint; `force_simple_setup`; start the e-stop keepalive; start
the watchdog (flag and thread); set `connected`; read the id for the
result payload. -/
def connectActions (rid : RobotId) : List (SpotState → SpotState) :=
  [fun s => { s with robot := some rid },
   fun s => s,
   fun s => s,
   fun s => { s with command_client := true },
   fun s => { s with state_client := true },
   fun s => { s with lease_client := true },
   fun s => { s with power_client := true },
   fun s => { s with estop_client := true },
   fun s => s,
   fun s => { s with lease_keepalive := true },
   fun s => { s with estop_endpoint := true },
   fun s => s,
   fun s => { s with estop_keepalive := true },
   fun s => { s with watchdog_active := true, watchdog_thread := true },
   fun s => { s with connected := true },
   fun s => s]

/-- Apply a list of state actions in order. -/
def applyActs (acts : List (SpotState → SpotState)) (s : SpotState) : SpotState :=
  acts.foldl (fun st a => a st) s

/-- Environment of one `connect` call: the identity the robot reports,
and optionally the index of the action during which an exception is
raised (actions before it have already run) together with that
exception. -/
structure ConnectWorld where
  rid : RobotId
  failure : Option (ℕ × PyExc)
deriving Repr

/-- Embeds `SpotBridge.connect`: performs the connect sequence with no
connection-state precondition check; on any exception (`RpcError` or
other) it runs `_cleanup` on the partially initialized state and returns
an error envelope. -/
def connect (s : SpotState) (w : ConnectWorld) : Envelope × SpotState :=
  match w.failure with
  | none =>
    ({ ok := true, data := some (.connectInfo "Connected to Spot" w.rid.serial) },
     applyActs (connectActions w.rid) s)
  | some (k, e) =>
    let s1 := cleanup (applyActs ((connectActions w.rid).take k) s)
    match e with
    | .rpcError _ _ => (rpcErrEnvelope e, s1)
    | .otherExc _ _ => (excEnvelope e "Check network connection and Spot configuration", s1)

/-- Environment of one watchdog poll iteration: the current wall-clock
time and the outcome of the zero-velocity command, should one be
issued. -/
structure WatchdogEnv where
  now : ℚ
  cap : CapOutcome
deriving Repr

/-- One iteration of the body of `SpotBridge._watchdog_loop`: when the
deadline is active (`last_velocity_time > 0`) and more than 0.5 s old, a
zero-velocity stop is issued via `_send_zero_velocity` (whose failures
are swallowed) and the deadline is reset to 0.  The boolean reports
whether a stop command was issued. -/
def watchdogIter (s : SpotState) (env : WatchdogEnv) : SpotState × Bool :=
  if 0 < s.last_velocity_time ∧ 1/2 < env.now - s.last_velocity_time then
    let r := sendZeroVelocity s env.cap
    ({ r.1 with last_velocity_time := 0 }, r.2)
  else (s, false)

/-- The `while self.watchdog_active` loop of `_watchdog_loop`, run over a
finite list of poll environments: each iteration first checks the run
flag and exits when it is false. -/
def watchdogRun (s : SpotState) (envs : List WatchdogEnv) : SpotState :=
  match envs with
  | [] => s
  | e :: es => if s.watchdog_active then watchdogRun (watchdogIter s e).1 es else s

/-- Number of entries of a check list with the given status. -/
def countStatus (st : String) (ts : List Check) : ℕ :=
  (ts.filter (fun t => t.status = st)).length

/-- Outcome of the DNS-resolution probe in `diagnose`. -/
inductive DnsOutcome where
  | resolved
  | gaierror (msg : String)
deriving DecidableEq, Repr

/-- Outcome of the TCP-connectivity probe (`connect_ex` on port 443). -/
inductive NetOutcome where
  | reached
  | refused
  | exc (msg : String)
deriving DecidableEq, Repr

/-- Environment of one `diagnose` call. -/
structure DiagWorld where
  dns : DnsOutcome
  net : NetOutcome
deriving DecidableEq, Repr

/-- Embeds `SpotBridge.diagnose`: DNS check, TCP check, then connection-dependent
checks (a fail-level "Robot Connection" entry when not connected; lease
and e-stop presence checks when connected); aggregates counts and an
overall status of "healthy" iff there are zero failures; always `ok`. -/
def diagnose (s : SpotState) (w : DiagWorld) : Envelope :=
  let c1 : Check :=
    match w.dns with
    | .resolved =>
      { name := "DNS Resolution", status := "pass"
        message := "Successfully resolved " ++ s.hostname }
    | .gaierror m =>
      { name := "DNS Resolution", status := "fail"
        message := "Failed to resolve " ++ s.hostname ++ ": " ++ m }
  let c2 : Check :=
    match w.net with
    | .reached =>
      { name := "Network Connectivity", status := "pass"
        message := "Can reach " ++ s.hostname ++ ":443" }
    | .refused =>
      { name := "Network Connectivity", status := "fail"
        message := "Cannot reach " ++ s.hostname ++ ":443" }
    | .exc m =>
      { name := "Network Connectivity", status := "fail"
        message := "Network check failed: " ++ m }
  let connChecks : List Check :=
    if s.connected then
      [{ name := "Robot Connection", status := "pass", message := "Connected to robot" },
       if s.lease_keepalive then
         { name := "Lease Status", status := "pass", message := "Lease active" }
       else
         { name := "Lease Status", status := "warn", message := "No lease acquired" },
       if s.estop_keepalive then
         { name := "E-Stop Status", status := "pass", message := "E-Stop configured and active" }
       else
         { name := "E-Stop Status", status := "warn", message := "E-Stop not configured" }]
    else
      [{ name := "Robot Connection", status := "fail", message := "Not connected to robot" }]
  let checks := [c1, c2] ++ connChecks
  let p := countStatus "pass" checks
  let f := countStatus "fail" checks
  let wn := countStatus "warn" checks
  { ok := true
    data := some (.diag
      { summary := toString p ++ " passed, " ++ toString f ++ " failed, " ++
          toString wn ++ " warnings"
        checks := checks
        overall_status := if f = 0 then "healthy" else "degraded" }) }

/-- Outcome of test 1 of `test_connection` (TCP `connect_ex`). -/
inductive Step1Outcome where
  | reached
  | refused (code : ℤ)
  | exc (msg : String)
deriving DecidableEq, Repr

/-- Outcome of test 2 (unauthenticated robot-id query). -/
inductive Step2Outcome where
  | found (rid : RobotId)
  | exc (msg : String)
deriving DecidableEq, Repr

/-- Outcome of test 3 (authentication). -/
inductive Step3Outcome where
  | accepted
  | exc (msg : String)
deriving DecidableEq, Repr

/-- Outcome of test 4 (clock synchronization). -/
inductive Step4Outcome where
  | synced
  | exc (msg : String)
deriving DecidableEq, Repr

/-- Environment of one `test_connection` call. -/
structure TCWorld where
  s1 : Step1Outcome
  s2 : Step2Outcome
  s3 : Step3Outcome
  s4 : Step4Outcome
deriving DecidableEq, Repr

/-- Embeds `SpotBridge.test_connection`: ordered short-circuiting probe chain.
The three early returns carry only `tests` and `summary` (no
`ready_to_connect` key, modelled as `none`); the full-chain return also
carries `ready_to_connect = (fail_count == 0)`. -/
def test_connection (s : SpotState) (w : TCWorld) : Envelope :=
  match w.s1 with
  | .refused code =>
    { ok := true
      data := some (.tc
        { tests := [{ name := "Network Connectivity", status := "fail"
                      message := "Cannot reach " ++ s.hostname ++ ":443 (error " ++
                        toString code ++ ")" }]
          summary := "Network unreachable"
          ready_to_connect := none }) }
  | .exc m =>
    { ok := true
      data := some (.tc
        { tests := [{ name := "Network Connectivity", status := "fail"
                      message := "Network error: " ++ m }]
          summary := "Network error"
          ready_to_connect := none }) }
  | .reached =>
    let t1 : Check :=
      { name := "Network Connectivity", status := "pass"
        message := "Successfully reached " ++ s.hostname ++ ":443" }
    match w.s2 with
    | .exc m =>
      { ok := true
        data := some (.tc
          { tests := [t1, { name := "Robot ID Query", status := "fail"
                            message := "Cannot get robot ID: " ++ m.take 100 }]
            summary := "Robot unreachable"
            ready_to_connect := none }) }
    | .found rid =>
      let t2 : Check :=
        { name := "Robot ID Query", status := "pass"
          message := "Robot found: " ++ rid.nickname ++ " (" ++ rid.serial ++ ")" }
      match w.s3 with
      | .exc m =>
        { ok := true
          data := some (.tc
            { tests := [t1, t2, { name := "Authentication", status := "fail"
                                  message := "Auth failed: " ++ m.take 100 }]
              summary := "Authentication failed"
              ready_to_connect := none }) }
      | .accepted =>
        let t3 : Check :=
          { name := "Authentication", status := "pass", message := "Credentials accepted" }
        let t4 : Check :=
          match w.s4 with
          | .synced =>
            { name := "Time Synchronization", status := "pass"
              message := "Clock synchronized" }
          | .exc m =>
            { name := "Time Synchronization", status := "warn"
              message := "Time sync issue: " ++ m.take 100 }
        let tests := [t1, t2, t3, t4]
        let p := countStatus "pass" tests
        let f := countStatus "fail" tests
        let summary :=
          if f = 0 then
            "✓ All tests passed (" ++ toString p ++ "/" ++ toString tests.length ++ ")"
          else
            "✗ " ++ toString f ++ " test(s) failed"
        { ok := true
          data := some (.tc
            { tests := tests
              summary := summary
              ready_to_connect := some (f = 0) }) }

/-- A representative fully-connected supervisor state, as left by a
successful `connect`. -/
def connectedState : SpotState :=
  { hostname := "192.168.80.3"
    username := "admin"
    password := "pw"
    robot := some { serial := "spot-1234", nickname := "spot" }
    command_client := true
    state_client := true
    lease_client := true
    power_client := true
    estop_client := true
    lease_keepalive := true
    estop_endpoint := true
    estop_keepalive := true
    last_velocity_time := 0
    watchdog_thread := true
    watchdog_active := true
    connected := true }

/-- True when an operation returned a result envelope instead of letting
an exception escape. -/
def returnsEnvelope (r : Except PyExc (Envelope × SpotState)) : Bool :=
  match r with
  | .ok _ => true
  | .error _ => false

/-- The `overall_status` field of a diagnose envelope, when present. -/
def diagOverall (e : Envelope) : Option String :=
  match e.data with
  | some (.diag d) => some d.overall_status
  | _ => none

/-- The `checks` list of a diagnose envelope. -/
def diagChecks (e : Envelope) : List Check :=
  match e.data with
  | some (.diag d) => d.checks
  | _ => []

theorem watchdogIter_preserves_active (s : SpotState) (env : WatchdogEnv) :
    ((watchdogIter s env).1).watchdog_active = s.watchdog_active := by
  simp only [watchdogIter]
  split
  · cases env.cap <;> rfl
  · rfl

/-- C1: on every watchdog poll iteration in an active session with robot
and command client present, an active deadline older than 0.5 s makes the
watchdog issue a zero-velocity stop and reset the deadline to 0 — also
when the stop command fails, because `_send_zero_velocity` swallows the
failure; an iteration never changes the run flag, so the loop processes
every poll and terminates only when `watchdog_active` is set false
externally. -/
theorem watchdog_forced_stop_and_persistence :
    (∀ (s : SpotState) (env : WatchdogEnv),
      s.watchdog_active = true →
      s.robot.isSome = true → s.command_client = true →
      0 < s.last_velocity_time → 1/2 < env.now - s.last_velocity_time →
      watchdogIter s env = ({ s with last_velocity_time := 0 }, true)) ∧
    (∀ (s : SpotState) (env : WatchdogEnv),
      ((watchdogIter s env).1).watchdog_active = s.watchdog_active) ∧
    (∀ (s : SpotState) (envs : List WatchdogEnv),
      s.watchdog_active = true →
      watchdogRun s envs = envs.foldl (fun st e => (watchdogIter st e).1) s) := by
  refine ⟨?_, watchdogIter_preserves_active, ?_⟩
  · intro s env _hact h1 h2 h3 h4
    simp only [watchdogIter]
    split
    · cases hc : env.cap <;> simp [sendZeroVelocity, hc, h1, h2]
    · next hn => exact absurd ⟨h3, h4⟩ hn
  · intro s envs h
    induction envs generalizing s with
    | nil => rfl
    | cons e es ih =>
      have h2 : ((watchdogIter s e).1).watchdog_active = true := by
        rw [watchdogIter_preserves_active]; exact h
      simp only [watchdogRun, h, if_true, List.foldl_cons]
      exact ih _ h2

/-- Witness for C1 at a concrete overdue state, with the stop command
failing. -/
theorem watchdog_forced_stop_witness :
    watchdogIter { connectedState with last_velocity_time := 1 }
        { now := 2, cap := .raise (.otherExc "TimeoutError" "net down") } =
      ({ connectedState with last_velocity_time := 0 }, true) ∧
    watchdogRun { connectedState with last_velocity_time := 1 }
        [{ now := 2, cap := .success }] =
      [({ now := 2, cap := .success } : WatchdogEnv)].foldl
        (fun st e => (watchdogIter st e).1) { connectedState with last_velocity_time := 1 } :=
  ⟨watchdog_forced_stop_and_persistence.1
      { connectedState with last_velocity_time := 1 }
      { now := 2, cap := .raise (.otherExc "TimeoutError" "net down") }
      rfl rfl rfl (by norm_num) (by norm_num),
   watchdog_forced_stop_and_persistence.2.2
      { connectedState with last_velocity_time := 1 }
      [{ now := 2, cap := .success }] rfl⟩

/-- C2: the velocity clamp maps every input into [-0.5, 0.5] and is the
identity on in-range input; the body-pose clamp maps every input into
[-0.3, 0.3] and is the identity on in-range input; `send_velocity` and
`set_body_pose` apply the clamps and succeed silently on any input when
connected. -/
theorem clamp_in_range_and_silent :
    (∀ v : ℚ, -(1/2) ≤ clampVelocity v ∧ clampVelocity v ≤ 1/2) ∧
    (∀ v : ℚ, -(1/2) ≤ v → v ≤ 1/2 → clampVelocity v = v) ∧
    (∀ v : ℚ, -(3/10) ≤ clampPose v ∧ clampPose v ≤ 3/10) ∧
    (∀ v : ℚ, -(3/10) ≤ v → v ≤ 3/10 → clampPose v = v) ∧
    (∀ (s : SpotState) (vx vy yaw now : ℚ), s.connected = true →
      send_velocity s vx vy yaw .success now =
        .ok ({ ok := true
               data := some (.velocity (clampVelocity vx) (clampVelocity vy) (clampVelocity yaw))
               error := none },
             { s with last_velocity_time := now })) ∧
    (∀ (s : SpotState) (h r p y : ℚ), s.connected = true →
      set_body_pose s h r p y .success =
        ({ ok := true
           data := some (.pose (clampPose h) (clampPose r) (clampPose p) (clampPose y))
           error := none }, s)) := by
  refine ⟨?_, ?_, ?_, ?_, ?_, ?_⟩
  · intro v
    exact ⟨le_max_left _ _, max_le (by norm_num) (min_le_left _ _)⟩
  · intro v h1 h2
    rw [clampVelocity, min_eq_right h2, max_eq_right h1]
  · intro v
    exact ⟨le_max_left _ _, max_le (by norm_num) (min_le_left _ _)⟩
  · intro v h1 h2
    rw [clampPose, min_eq_right h2, max_eq_right h1]
  · intro s vx vy yaw now hc
    simp [send_velocity, hc]
  · intro s h r p y hc
    simp [set_body_pose, hc]

/-- Witness for C2: an out-of-range velocity clamps to the bound, an
in-range pose value is unchanged, and both command paths succeed at a
concrete connected state with out-of-range input. -/
theorem clamp_in_range_witness :
    (-(1/2) ≤ clampVelocity 7 ∧ clampVelocity 7 ≤ 1/2) ∧
    clampPose (1/10) = 1/10 ∧
    send_velocity connectedState 2 (-3) (1/4) .success 100 =
      .ok ({ ok := true
             data := some (.velocity (clampVelocity 2) (clampVelocity (-3)) (clampVelocity (1/4)))
             error := none },
           { connectedState with last_velocity_time := 100 }) ∧
    set_body_pose connectedState (2/5) 0 0 0 .success =
      ({ ok := true
         data := some (.pose (clampPose (2/5)) (clampPose 0) (clampPose 0) (clampPose 0))
         error := none }, connectedState) :=
  ⟨clamp_in_range_and_silent.1 7,
   clamp_in_range_and_silent.2.2.2.1 (1/10) (by norm_num) (by norm_num),
   clamp_in_range_and_silent.2.2.2.2.1 connectedState 2 (-3) (1/4) 100 rfl,
   clamp_in_range_and_silent.2.2.2.2.2 connectedState (2/5) 0 0 0 rfl⟩

/-- C3 counterexample: `power_on` catches only `RpcError`, so a connected
supervisor hit by any other exception from the power capability lets that
exception propagate out of the operation instead of returning a
ResultEnvelope. -/
theorem supervisor_exception_escapes :
    power_on connectedState (.raise (.otherExc "PowerResponseError" "power fault")) =
      .error (.otherExc "PowerResponseError" "power fault") := rfl

/-- C3 amended: no `RpcError` from the capability ever escapes an
operation; when connected, `power_on`, `power_off`, `stand`, `sit` and
`send_velocity` turn an `RpcError` into the Rpc error envelope with
`ok = false` but let any non-Rpc exception propagate; `connect`,
`get_status`, `set_body_pose`, `estop_stop` and `estop_release` catch
every failure and return an `ok = false` envelope; `stop` and
`disconnect` also catch every failure but swallow capability failures
internally and still return `ok = true`. -/
theorem supervisor_error_envelope_policy :
    (∀ (s : SpotState) (c m : String),
      returnsEnvelope (power_on s (.raise (.rpcError c m))) = true ∧
      returnsEnvelope (power_off s (.raise (.rpcError c m))) = true ∧
      returnsEnvelope (stand s (.raise (.rpcError c m))) = true ∧
      returnsEnvelope (sit s (.raise (.rpcError c m))) = true ∧
      (∀ vx vy yaw now : ℚ,
        returnsEnvelope (send_velocity s vx vy yaw (.raise (.rpcError c m)) now) = true)) ∧
    (∀ (s : SpotState) (c m : String), s.connected = true →
      (rpcErrEnvelope (.rpcError c m)).ok = false ∧
      power_on s (.raise (.rpcError c m)) = .ok (rpcErrEnvelope (.rpcError c m), s) ∧
      power_off s (.raise (.rpcError c m)) = .ok (rpcErrEnvelope (.rpcError c m), s) ∧
      stand s (.raise (.rpcError c m)) = .ok (rpcErrEnvelope (.rpcError c m), s) ∧
      sit s (.raise (.rpcError c m)) = .ok (rpcErrEnvelope (.rpcError c m), s) ∧
      (∀ vx vy yaw now : ℚ,
        send_velocity s vx vy yaw (.raise (.rpcError c m)) now =
          .ok (rpcErrEnvelope (.rpcError c m), s))) ∧
    (∀ (s : SpotState) (c m : String), s.connected = true →
      power_on s (.raise (.otherExc c m)) = .error (.otherExc c m) ∧
      power_off s (.raise (.otherExc c m)) = .error (.otherExc c m) ∧
      stand s (.raise (.otherExc c m)) = .error (.otherExc c m) ∧
      sit s (.raise (.otherExc c m)) = .error (.otherExc c m) ∧
      (∀ vx vy yaw now : ℚ,
        send_velocity s vx vy yaw (.raise (.otherExc c m)) now = .error (.otherExc c m))) ∧
    (∀ (s : SpotState) (w : ConnectWorld) (k : ℕ) (e : PyExc),
      w.failure = some (k, e) → ((connect s w).1).ok = false) ∧
    (∀ (s : SpotState) (e : PyExc), s.connected = true →
      ((set_body_pose s 0 0 0 0 (.raise e)).1).ok = false ∧
      ((get_status s { outcome := .raise e, now := 0 }).1).ok = false ∧
      ((estop_stop s (.raise e)).1).ok = false ∧
      ((estop_release s (.raise e)).1).ok = false) ∧
    (∀ (s : SpotState) (cap : CapOutcome), s.connected = true →
      ((stop s cap).1).ok = true) ∧
    (∀ s : SpotState, ((disconnect s).1).ok = true) := by
  refine ⟨?_, ?_, ?_, ?_, ?_, ?_, ?_⟩
  · intro s c m
    cases hb : s.connected <;>
      simp [power_on, power_off, stand, sit, send_velocity, hb, returnsEnvelope]
  · intro s c m hc
    refine ⟨rfl, ?_, ?_, ?_, ?_, ?_⟩ <;>
      simp [power_on, power_off, stand, sit, send_velocity, hc]
  · intro s c m hc
    refine ⟨?_, ?_, ?_, ?_, ?_⟩ <;>
      simp [power_on, power_off, stand, sit, send_velocity, hc]
  · intro s w k e hf
    cases e <;> simp [connect, hf, rpcErrEnvelope, excEnvelope]
  · intro s e hc
    cases e <;>
      simp [set_body_pose, get_status, estop_stop, estop_release, errMsg,
        rpcErrEnvelope, excEnvelope, hc] <;>
      by_cases he : s.estop_endpoint = false <;> by_cases hr : s.robot = none <;>
      simp [he, hr]
  · intro s cap hc
    cases hcap : cap <;> simp [stop, sendZeroVelocity, okMsg, hcap, hc]
  · intro s
    rfl

/-- Witness for C3 amended at concrete inputs: a connected supervisor
turns an RpcError from the power capability into the exact `ok = false`
Rpc error envelope, a non-Rpc exception escapes `send_velocity`, and
`stop` still reports success when its stop command fails with an
RpcError. -/
theorem supervisor_error_envelope_policy_witness :
    power_on connectedState
        (.raise (.rpcError "UnableToConnectToRobotError" "robot unreachable")) =
      .ok (rpcErrEnvelope (.rpcError "UnableToConnectToRobotError" "robot unreachable"),
           connectedState) ∧
    send_velocity connectedState 0 0 0 (.raise (.otherExc "ValueError" "boom")) 1 =
      .error (.otherExc "ValueError" "boom") ∧
    ((stop connectedState (.raise (.rpcError "RpcError" "net down"))).1).ok = true :=
  ⟨(supervisor_error_envelope_policy.2.1 connectedState
      "UnableToConnectToRobotError" "robot unreachable" rfl).2.1,
   (supervisor_error_envelope_policy.2.2.1 connectedState "ValueError" "boom" rfl).2.2.2.2 0 0 0 1,
   supervisor_error_envelope_policy.2.2.2.2.2.1 connectedState
      (.raise (.rpcError "RpcError" "net down")) rfl⟩

/-- C4: a failure during any step of `connect` triggers `_cleanup`: the
returned envelope is an error and the resulting state is fully rolled
back — not connected, watchdog flag cleared, and every session, client
and keepalive handle absent. -/
theorem connect_failure_full_rollback :
    ∀ (s : SpotState) (w : ConnectWorld) (k : ℕ) (e : PyExc),
      w.failure = some (k, e) →
      ((connect s w).1).ok = false ∧
      ((connect s w).2).connected = false ∧
      ((connect s w).2).watchdog_active = false ∧
      ((connect s w).2).robot = none ∧
      ((connect s w).2).command_client = false ∧
      ((connect s w).2).state_client = false ∧
      ((connect s w).2).lease_client = false ∧
      ((connect s w).2).power_client = false ∧
      ((connect s w).2).estop_client = false ∧
      ((connect s w).2).lease_keepalive = false ∧
      ((connect s w).2).estop_endpoint = false ∧
      ((connect s w).2).estop_keepalive = false := by
  intro s w k e hf
  cases e <;>
    simp [connect, hf, cleanup, rpcErrEnvelope, excEnvelope]

/-- Witness for C4: connect failing at the lease-acquisition action
(index 8) on a fresh supervisor rolls back fully. -/
theorem connect_failure_full_rollback_witness :
    ((connect (initState "192.168.80.3" "admin" "pw")
        { rid := { serial := "spot-1234", nickname := "spot" }
          failure := some (8, .rpcError "ResourceAlreadyClaimedError"
            "Lease is owned by another client") }).1).ok = false ∧
    ((connect (initState "192.168.80.3" "admin" "pw")
        { rid := { serial := "spot-1234", nickname := "spot" }
          failure := some (8, .rpcError "ResourceAlreadyClaimedError"
            "Lease is owned by another client") }).2).connected = false ∧
    ((connect (initState "192.168.80.3" "admin" "pw")
        { rid := { serial := "spot-1234", nickname := "spot" }
          failure := some (8, .rpcError "ResourceAlreadyClaimedError"
            "Lease is owned by another client") }).2).watchdog_active = false :=
  have h := connect_failure_full_rollback (initState "192.168.80.3" "admin" "pw")
    { rid := { serial := "spot-1234", nickname := "spot" }
      failure := some (8, .rpcError "ResourceAlreadyClaimedError"
        "Lease is owned by another client") }
    8 (.rpcError "ResourceAlreadyClaimedError" "Lease is owned by another client") rfl
  ⟨h.1, h.2.1, h.2.2.1⟩

/-- C5 counterexample: `_cleanup` never touches `last_velocity_time`, so
after `disconnect` on a connected supervisor with a live deadline of 5
the deadline is still 5, not inactive. -/
theorem disconnect_keeps_stale_deadline :
    ((disconnect { connectedState with last_velocity_time := 5 }).2).last_velocity_time = 5 ∧
    ((disconnect { connectedState with last_velocity_time := 5 }).2).last_velocity_time ≠ 0 := by
  constructor
  · rfl
  · norm_num [disconnect, cleanup]

/-- C5 amended: `stop` clears the deadline to 0 whenever the supervisor
is connected — for any prior deadline value, even if the underlying stop
command fails — while `stop` on a disconnected supervisor returns an
error and leaves the state unchanged; `_cleanup` (hence `disconnect`)
leaves `last_velocity_time` at its prior value instead of resetting
it. -/
theorem stop_clears_deadline_cleanup_preserves :
    (∀ (s : SpotState) (cap : CapOutcome), s.connected = true →
      ((stop s cap).2).last_velocity_time = 0 ∧ ((stop s cap).1).ok = true) ∧
    (∀ (s : SpotState) (cap : CapOutcome), s.connected = false →
      stop s cap = (errMsg "Not connected", s)) ∧
    (∀ s : SpotState, (cleanup s).last_velocity_time = s.last_velocity_time) ∧
    (∀ s : SpotState, ((disconnect s).2).last_velocity_time = s.last_velocity_time) := by
  refine ⟨?_, ?_, ?_, ?_⟩
  · intro s cap hc
    cases hcap : cap <;> simp [stop, sendZeroVelocity, okMsg, hcap, hc]
  · intro s cap hc
    simp [stop, hc]
  · intro s
    rfl
  · intro s
    rfl

/-- Witness for C5 amended at a concrete state with deadline 7. -/
theorem stop_clears_deadline_witness :
    ((stop { connectedState with last_velocity_time := 7 }
        (.raise (.otherExc "TimeoutError" "net down"))).2).last_velocity_time = 0 ∧
    (cleanup { connectedState with last_velocity_time := 7 }).last_velocity_time = 7 ∧
    stop (initState "h" "u" "p") .success = (errMsg "Not connected", initState "h" "u" "p") :=
  ⟨(stop_clears_deadline_cleanup_preserves.1 { connectedState with last_velocity_time := 7 }
      (.raise (.otherExc "TimeoutError" "net down")) rfl).1,
   stop_clears_deadline_cleanup_preserves.2.2.1 { connectedState with last_velocity_time := 7 },
   stop_clears_deadline_cleanup_preserves.2.1 (initState "h" "u" "p") .success rfl⟩

/-- C6 counterexample: `connect` has no connection-state precondition
check — called on an already connected supervisor with all steps
succeeding it returns a success envelope, not a contract-violation
error. -/
theorem connect_ignores_connected_state :
    ((connect connectedState
        { rid := { serial := "spot-5678", nickname := "spot2" }, failure := none }).1).ok = true ∧
    ((connect connectedState
        { rid := { serial := "spot-5678", nickname := "spot2" }, failure := none }).1).error
      = none := ⟨rfl, rfl⟩

/-- C6 amended: every operate method called while not connected returns
an error envelope without crashing, but `connect` performs no
connection-state check: from any state, a connect whose steps all succeed
returns a success envelope. -/
theorem operate_guard_and_connect_unchecked :
    (∀ (s : SpotState) (cap : CapOutcome), s.connected = false →
      power_on s cap = .ok (errMsg "Not connected", s) ∧
      power_off s cap = .ok (errMsg "Not connected", s) ∧
      stand s cap = .ok (errMsg "Not connected", s) ∧
      sit s cap = .ok (errMsg "Not connected", s) ∧
      stop s cap = (errMsg "Not connected", s)) ∧
    (∀ (s : SpotState) (vx vy yaw now : ℚ) (cap : CapOutcome), s.connected = false →
      send_velocity s vx vy yaw cap now = .ok (errMsg "Not connected", s)) ∧
    (∀ (s : SpotState) (h r p y : ℚ) (cap : CapOutcome), s.connected = false →
      set_body_pose s h r p y cap = (errMsg "Not connected", s)) ∧
    (∀ (s : SpotState) (w : StatusWorld), s.connected = false →
      get_status s w = (errMsg "Not connected to robot", s)) ∧
    (∀ (s : SpotState) (w : ConnectWorld), w.failure = none →
      ((connect s w).1).ok = true ∧ ((connect s w).1).error = none) := by
  refine ⟨?_, ?_, ?_, ?_, ?_⟩
  · intro s cap hc
    refine ⟨?_, ?_, ?_, ?_, ?_⟩ <;>
      simp [power_on, power_off, stand, sit, stop, hc]
  · intro s vx vy yaw now cap hc
    simp [send_velocity, hc]
  · intro s h r p y cap hc
    simp [set_body_pose, hc]
  · intro s w hc
    simp [get_status, hc]
  · intro s w hf
    simp [connect, hf]

/-- Witness for C6 amended: a fresh supervisor rejects `power_on`, and a
connected supervisor still gets a success envelope from `connect`. -/
theorem operate_guard_witness :
    power_on (initState "h" "u" "p") .success =
      .ok (errMsg "Not connected", initState "h" "u" "p") ∧
    ((connect connectedState
        { rid := { serial := "spot-9", nickname := "s9" }, failure := none }).1).ok = true :=
  ⟨(operate_guard_and_connect_unchecked.1 (initState "h" "u" "p") .success rfl).1,
   (operate_guard_and_connect_unchecked.2.2.2.2 connectedState
      { rid := { serial := "spot-9", nickname := "s9" }, failure := none } rfl).1⟩

/-- C7 counterexample: the not-connected error of `get_status` carries
only a message — `{"message": "Not connected to robot"}` — with no
`error_type`/kind field, so it does not carry the kind `NotConnected`. -/
theorem get_status_error_has_no_kind :
    (get_status (initState "192.168.80.3" "admin" "pw")
        { outcome := .stateOk none 0, now := 0 }).1 =
      { ok := false
        data := none
        error := some { error_type := none
                        message := "Not connected to robot"
                        suggested_fix := none } } ∧
    ((get_status (initState "192.168.80.3" "admin" "pw")
        { outcome := .stateOk none 0, now := 0 }).1).error.map ErrInfo.error_type ≠
      some (some "NotConnected") := by
  constructor
  · rfl
  · simp [get_status, initState, errMsg]

/-- C7 amended: `get_status` while disconnected returns `ok = false` with
the message-only error "Not connected to robot" (no kind field) and never
raises; in every case it returns the supervisor state unchanged
(read-only). -/
theorem get_status_not_connected_and_readonly :
    (∀ (s : SpotState) (w : StatusWorld), s.connected = false →
      get_status s w = (errMsg "Not connected to robot", s)) ∧
    (∀ (s : SpotState) (w : StatusWorld), (get_status s w).2 = s) := by
  constructor
  · intro s w hc
    simp [get_status, hc]
  · intro s w
    by_cases hc : s.connected = false ∨ s.robot = none
    · simp [get_status, hc]
    · cases ho : w.outcome with
      | stateOk battery motor => simp [get_status, hc, ho]
      | raise e => cases e <;> simp [get_status, hc, ho]

/-- Witness for C7 amended: a fresh supervisor and a connected one. -/
theorem get_status_witness :
    get_status (initState "h" "u" "p") { outcome := .stateOk none 0, now := 3 } =
      (errMsg "Not connected to robot", initState "h" "u" "p") ∧
    (get_status connectedState { outcome := .stateOk (some (80, 3600)) 2, now := 5 }).2 =
      connectedState :=
  ⟨get_status_not_connected_and_readonly.1 (initState "h" "u" "p")
      { outcome := .stateOk none 0, now := 3 } rfl,
   get_status_not_connected_and_readonly.2 connectedState
      { outcome := .stateOk (some (80, 3600)) 2, now := 5 }⟩

/-- C8 counterexample: on an unreachable host (connect_ex code 113) the
short-circuit return of `test_connection` carries only `tests` and
`summary` — its `ready_to_connect` entry is `none` (key absent), not
`false`. -/
theorem test_connection_short_circuit_omits_ready :
    test_connection (initState "10.0.0.99" "admin" "pw")
        { s1 := .refused 113, s2 := .exc "n/a", s3 := .exc "n/a", s4 := .exc "n/a" } =
      { ok := true
        data := some (.tc
          { tests := [{ name := "Network Connectivity", status := "fail"
                        message := "Cannot reach 10.0.0.99:443 (error 113)" }]
            summary := "Network unreachable"
            ready_to_connect := none })
        error := none } ∧
    (none : Option Bool) ≠ some false := by
  constructor
  · rfl
  · simp

/-- C8 amended: `test_connection` on an unreachable host (nonzero
connect_ex) returns `ok = true`, a tests list with exactly one fail-level
"Network Connectivity" entry and no subsequent probe entries, summary
"Network unreachable", and no `ready_to_connect` key (rather than
`ready_to_connect = false`; only the full-chain result carries that
key). -/
theorem test_connection_short_circuit :
    ∀ (s : SpotState) (code : ℤ) (w2 : Step2Outcome) (w3 : Step3Outcome) (w4 : Step4Outcome),
      test_connection s { s1 := .refused code, s2 := w2, s3 := w3, s4 := w4 } =
        { ok := true
          data := some (.tc
            { tests := [{ name := "Network Connectivity", status := "fail"
                          message := "Cannot reach " ++ s.hostname ++ ":443 (error " ++
                            toString code ++ ")" }]
              summary := "Network unreachable"
              ready_to_connect := none })
          error := none } := by
  intro s code w2 w3 w4
  rfl

/-- C9: `disconnect` is idempotent: it always succeeds with no error and
leaves a disconnected state, a second `disconnect` on that state succeeds
again and changes nothing, and `_cleanup` is a no-op on already-cleaned
state. -/
theorem disconnect_idempotent :
    ∀ s : SpotState,
      ((disconnect s).1).ok = true ∧
      ((disconnect s).1).error = none ∧
      ((disconnect s).2).connected = false ∧
      disconnect ((disconnect s).2) = (okMsg "Disconnected", (disconnect s).2) ∧
      cleanup (cleanup s) = cleanup s := by
  intro s
  exact ⟨rfl, rfl, rfl, rfl, rfl⟩

/-- C10: `diagnose` while not connected always records a fail-level
"Robot Connection" check, so its overall status is "degraded" — even when
the DNS and network probes both pass — while the envelope itself is still
`ok = true`. -/
theorem diagnose_disconnected_degraded :
    ∀ (s : SpotState) (w : DiagWorld), s.connected = false →
      (diagnose s w).ok = true ∧
      diagOverall (diagnose s w) = some "degraded" ∧
      ({ name := "Robot Connection", status := "fail"
         message := "Not connected to robot" } : Check) ∈ diagChecks (diagnose s w) := by
  intro s w h
  refine ⟨rfl, ?_, ?_⟩ <;>
    cases hd : w.dns <;> cases hn : w.net <;>
      simp [diagnose, diagOverall, diagChecks, countStatus, hd, hn, h]

/-- Witness for C10: fresh supervisor, both probes passing. -/
theorem diagnose_disconnected_witness :
    (diagnose (initState "10.0.0.99" "u" "p") { dns := .resolved, net := .reached }).ok = true ∧
    diagOverall (diagnose (initState "10.0.0.99" "u" "p")
      { dns := .resolved, net := .reached }) = some "degraded" ∧
    ({ name := "Robot Connection", status := "fail"
       message := "Not connected to robot" } : Check) ∈
      diagChecks (diagnose (initState "10.0.0.99" "u" "p")
        { dns := .resolved, net := .reached }) :=
  diagnose_disconnected_degraded (initState "10.0.0.99" "u" "p")
    { dns := .resolved, net := .reached } rfl

end SpotWeb
